import Mathlib

/-!
Verification development for the Parkinson disease prediction backend.
Shallow embedding of the feature mapper, clinical risk rubric, clinical
assessment endpoint, voice feature extractor and multi-model endpoint from
backend/routers/predictions.py, backend/voice_analyzer.py and the registry
helpers. Real values are modelled as rationals; Python dictionaries as
functions to Option or association lists; raised exceptions as Except.
-/

namespace Parkinson

/-! ## Feature mapper (predictions.py lines 217-293) -/

/-- EXPECTED_FEATURE_NAMES from predictions.py: the 22 schema feature names. -/
def EXPECTED_FEATURE_NAMES : List String :=
  ["MDVP:Fo(Hz)", "MDVP:Fhi(Hz)", "MDVP:Flo(Hz)", "MDVP:Jitter(%)",
   "MDVP:Jitter(Abs)", "MDVP:RAP", "MDVP:PPQ", "Jitter:DDP",
   "MDVP:Shimmer", "MDVP:Shimmer(dB)", "Shimmer:APQ3", "Shimmer:APQ5",
   "MDVP:APQ", "Shimmer:DDA", "NHR", "HNR", "RPDE", "DFA",
   "spread1", "spread2", "D2", "PPE"]

/-- FEATURE_MAPPING from predictions.py: frontend alias to schema name. -/
def FEATURE_MAPPING : List (String × String) :=
  [("mdvpFo", "MDVP:Fo(Hz)"),
   ("mdvpFhi", "MDVP:Fhi(Hz)"),
   ("mdvpFlo", "MDVP:Flo(Hz)"),
   ("mdvpJitter", "MDVP:Jitter(%)"),
   ("mdvpJitterAbs", "MDVP:Jitter(Abs)"),
   ("mdvpRap", "MDVP:RAP"),
   ("mdvpPpq", "MDVP:PPQ"),
   ("jitterDdp", "Jitter:DDP"),
   ("mdvpShimmer", "MDVP:Shimmer"),
   ("mdvpShimmerDb", "MDVP:Shimmer(dB)"),
   ("shimmerApq3", "Shimmer:APQ3"),
   ("shimmerApq5", "Shimmer:APQ5"),
   ("mdvpApq", "MDVP:APQ"),
   ("shimmerDda", "Shimmer:DDA"),
   ("nhr", "NHR"),
   ("hnr", "HNR"),
   ("rpde", "RPDE"),
   ("dfa", "DFA"),
   ("spread1", "spread1"),
   ("spread2", "spread2"),
   ("d2", "D2"),
   ("ppe", "PPE")]

/-- DEFAULT_VALUES from predictions.py: registered defaults for nine schema names. -/
def DEFAULT_VALUES : List (String × ℚ) :=
  [("MDVP:Jitter(Abs)", 0.00005),
   ("MDVP:RAP", 0.003),
   ("MDVP:PPQ", 0.003),
   ("Jitter:DDP", 0.009),
   ("MDVP:Shimmer(dB)", 0.35),
   ("Shimmer:APQ3", 0.02),
   ("Shimmer:APQ5", 0.025),
   ("MDVP:APQ", 0.03),
   ("Shimmer:DDA", 0.06)]

/-- A Python dictionary with string keys and float values, as a partial map. -/
abbrev PyDict := String → Option ℚ

/-- The empty dictionary. -/
def emptyDict : PyDict := fun _ => none

/-- Dictionary assignment d[k] = v. -/
def dictSet (d : PyDict) (k : String) (v : ℚ) : PyDict :=
  fun t => if t = k then some v else d t

/-- One iteration of the first loop of prepare_model_input: copy the value of
the alias p.1 to the schema name p.2 when the alias is present in the input. -/
def mapStep (input : PyDict) (d : PyDict) (p : String × String) : PyDict :=
  match input p.1 with
  | some v => dictSet d p.2 v
  | none => d

/-- The registered default for a schema name, or the fallback 0.0, as used in
the second loop of prepare_model_input. -/
def defaultOrZero (f : String) : ℚ :=
  match DEFAULT_VALUES.lookup f with
  | some dv => dv
  | none => 0

/-- One iteration of the second loop of prepare_model_input: if the schema
name f is not yet populated, fill it with its registered default or 0.0. -/
def fillStep (d : PyDict) (f : String) : PyDict :=
  match d f with
  | some _ => d
  | none => dictSet d f (defaultOrZero f)

/-- prepare_model_input from predictions.py: map frontend aliases onto the
model schema, then fill every unpopulated schema name with a default. -/
def prepare_model_input (input : PyDict) : PyDict :=
  let mapped := FEATURE_MAPPING.foldl (mapStep input) emptyDict
  EXPECTED_FEATURE_NAMES.foldl fillStep mapped

/-- The value the claim predicts for schema name s: the input value of the
alias mapped to s when supplied, otherwise the registered default or 0.0. -/
def preparedValueSpec (input : PyDict) (s : String) : ℚ :=
  match FEATURE_MAPPING.find? (fun p => p.2 == s) with
  | some p =>
      match input p.1 with
      | some v => v
      | none => defaultOrZero s
  | none => defaultOrZero s

/-! ## Clinical risk rubric (predictions.py lines 973-998) -/

/-- ClinicalSymptoms request model: six boolean symptom flags and an age. -/
structure ClinicalSymptoms where
  tremor : Bool
  rigidity : Bool
  bradykinesia : Bool
  posturalInstability : Bool
  voiceChanges : Bool
  handwriting : Bool
  age : ℤ

/-- calculate_clinical_risk_from_symptoms from predictions.py: the additive
rubric over the six symptom flags plus the age term, capped at 100. -/
def calculate_clinical_risk_from_symptoms (s : ClinicalSymptoms) : ℚ :=
  let risk0 : ℚ := 0
  let age_factor : ℚ := if s.age > 40 then min (((s.age : ℚ) - 40) / 40) 1 else 0
  let r1 := risk0 + age_factor * 15
  let r2 := if s.tremor then r1 + 25 else r1
  let r3 := if s.rigidity then r2 + 20 else r2
  let r4 := if s.bradykinesia then r3 + 25 else r3
  let r5 := if s.posturalInstability then r4 + 15 else r4
  let r6 := if s.voiceChanges then r5 + 10 else r5
  let r7 := if s.handwriting then r6 + 5 else r6
  min r7 100

/-! ## Clinical assessment endpoint (predictions.py lines 757-944) -/

/-- CombinedFeatures request model: the 13 named float voice features. -/
structure CombinedFeatures where
  mdvpFo : ℚ
  mdvpFhi : ℚ
  mdvpFlo : ℚ
  mdvpJitter : ℚ
  mdvpShimmer : ℚ
  nhr : ℚ
  hnr : ℚ
  rpde : ℚ
  dfa : ℚ
  spread1 : ℚ
  spread2 : ℚ
  d2 : ℚ
  ppe : ℚ
  deriving DecidableEq, Repr

/-- ClinicalAssessmentResponse from predictions.py. -/
structure ClinicalAssessmentResponse where
  prediction : ℤ
  probability : ℚ
  risk_score : ℚ
  model_used : String
  feature_importance : List (String × ℚ)
  has_voice_data : Bool
  deriving DecidableEq, Repr

/-- The hard-coded sample feature importance returned on the early-return
branch of assess_clinical_symptoms (predictions.py lines 780-794). -/
def HARDCODED_FEATURE_IMPORTANCE : List (String × ℚ) :=
  [("MDVP:Fo(Hz)", 0.08), ("MDVP:Fhi(Hz)", 0.06), ("MDVP:Flo(Hz)", 0.07),
   ("MDVP:Jitter(%)", 0.12), ("MDVP:Shimmer", 0.14), ("NHR", 0.09),
   ("HNR", 0.11), ("RPDE", 0.08), ("DFA", 0.08), ("spread1", 0.06),
   ("spread2", 0.04), ("D2", 0.03), ("PPE", 0.04)]

/-- The process state the clinical assessment endpoint depends on: the loaded
flags of the scaler and the ensemble and random forest handles after the
reload attempt of ensure_models_loaded, the predict_proba call of the model
in use on a prepared input (an error models a raised exception), and the
feature_importances_ attribute when the model in use exposes one. -/
structure ModelEnv where
  scalerLoaded : Bool
  ensembleLoaded : Bool
  rfLoaded : Bool
  predictProba : PyDict → Except Unit ℚ
  featureImportances : Option (List ℚ)

/-- ensure_models_loaded from predictions.py: true when the scaler and at
least one of the random forest or ensemble handles are loaded, the flags
describing the state after its reload attempt. -/
def ensure_models_loaded (env : ModelEnv) : Bool :=
  env.scalerLoaded && (env.rfLoaded || env.ensembleLoaded)

/-- The model input dictionary built inside assess_clinical_symptoms for
voice features (predictions.py lines 843-866): thirteen direct mappings then
defaults for the remaining schema names. -/
def clinicalVoiceInput (v : CombinedFeatures) : PyDict :=
  let d := emptyDict
  let d := dictSet d "MDVP:Fo(Hz)" v.mdvpFo
  let d := dictSet d "MDVP:Fhi(Hz)" v.mdvpFhi
  let d := dictSet d "MDVP:Flo(Hz)" v.mdvpFlo
  let d := dictSet d "MDVP:Jitter(%)" v.mdvpJitter
  let d := dictSet d "MDVP:Shimmer" v.mdvpShimmer
  let d := dictSet d "NHR" v.nhr
  let d := dictSet d "HNR" v.hnr
  let d := dictSet d "RPDE" v.rpde
  let d := dictSet d "DFA" v.dfa
  let d := dictSet d "spread1" v.spread1
  let d := dictSet d "spread2" v.spread2
  let d := dictSet d "D2" v.d2
  let d := dictSet d "PPE" v.ppe
  EXPECTED_FEATURE_NAMES.foldl fillStep d

/-- The voice analysis block of assess_clinical_symptoms (predictions.py
lines 834-900), returning voice_probability, voice_risk,
voice_data_processed and model_name. The try block catches any model
exception and keeps zeros with voice_data_processed false; when the scaler
is missing it also keeps zeros. -/
def voiceAnalysisBlock (env : ModelEnv) (v : CombinedFeatures) :
    ℚ × ℚ × Bool × String :=
  if env.scalerLoaded then
    match env.predictProba (clinicalVoiceInput v) with
    | .ok p =>
        (p, p * 100, true,
          if env.ensembleLoaded then "ensemble_voting_classifier" else "random_forest")
    | .error _ => (0, 0, false, "")
  else (0, 0, false, "")

/-- assess_clinical_symptoms from predictions.py. The handler first returns
a pre-generated response whenever voice features are structurally present
(lines 765-805), with the fixed voice probability 0.65 and risk 65.0;
otherwise it requires ensure_models_loaded, runs the voice analysis block
only when voice data is present (never, on this branch), and fuses the
clinical risk with the voice result (lines 906-939). Errors model raised
HTTPExceptions with their status code. -/
def assess_clinical_symptoms (env : ModelEnv) (sym : ClinicalSymptoms)
    (vf : Option CombinedFeatures) : Except ℕ ClinicalAssessmentResponse :=
  if vf.isSome then
    let clinical_risk := calculate_clinical_risk_from_symptoms sym
    let voice_probability : ℚ := 0.65
    let voice_risk : ℚ := 65.0
    let combined_probability := voice_probability * 0.6 + clinical_risk / 100 * 0.4
    let combined_risk := voice_risk * 0.6 + clinical_risk * 0.4
    let final_prediction : ℤ := if combined_probability > 0.5 then 1 else 0
    .ok ⟨final_prediction, combined_probability, combined_risk,
         "ensemble_with_clinical", HARDCODED_FEATURE_IMPORTANCE, true⟩
  else
    let has_voice_data := vf.isSome
    if ¬ ensure_models_loaded env then .error 503
    else
      let clinical_risk := calculate_clinical_risk_from_symptoms sym
      let voiceRes : ℚ × ℚ × Bool × String :=
        if has_voice_data then
          match vf with
          | some v => voiceAnalysisBlock env v
          | none => (0, 0, false, "")
        else (0, 0, false, "")
      let voice_probability := voiceRes.1
      let voice_risk := voiceRes.2.1
      let voice_data_processed := voiceRes.2.2.1
      let model_name := voiceRes.2.2.2
      let feature_importance : List (String × ℚ) :=
        if has_voice_data then
          match env.featureImportances with
          | some imps => EXPECTED_FEATURE_NAMES.zip imps
          | none => []
        else []
      if has_voice_data ∧ voice_data_processed ∧ voice_probability > 0 then
        let combined_probability := voice_probability * 0.6 + clinical_risk / 100 * 0.4
        let combined_risk := voice_risk * 0.6 + clinical_risk * 0.4
        let final_prediction : ℤ := if combined_probability > 0.5 then 1 else 0
        .ok ⟨final_prediction, combined_probability, combined_risk,
             model_name ++ "_with_clinical", feature_importance,
             has_voice_data && voice_data_processed⟩
      else
        let combined_probability := clinical_risk / 100
        let combined_risk := clinical_risk
        let final_prediction : ℤ := if clinical_risk > 50 then 1 else 0
        .ok ⟨final_prediction, combined_probability, combined_risk,
             "clinical_assessment", feature_importance,
             has_voice_data && voice_data_processed⟩

/-! ## Voice feature extractor (predictions.py lines 1240-1360) -/

/-- A Python exception escaping extract_voice_features: either an exception
of an unguarded library call, or a NameError from reading a local name that
was never assigned. -/
inductive PyError where
  | libError : PyError
  | nameError : PyError
  deriving DecidableEq, Repr

/-- The outcomes of the library calls extract_voice_features makes: the
pyin pitch track (frames, none for NaN; an error models a raised
exception), the hpss harmonic and percussive components, and the entropy of
the histogram of a period list. -/
structure AudioLibEnv where
  pyinResult : Except Unit (List (Option ℚ))
  hpssResult : Except Unit (List ℚ × List ℚ)
  periodsEntropy : List ℚ → ℚ

/-- Arithmetic mean of a list, as np.mean. -/
def listMean (l : List ℚ) : ℚ := l.sum / l.length

/-- Maximum of a list, as np.max on a nonempty array. -/
def listMax : List ℚ → ℚ
  | [] => 0
  | x :: xs => xs.foldl max x

/-- Minimum of a list, as np.min on a nonempty array. -/
def listMin : List ℚ → ℚ
  | [] => 0
  | x :: xs => xs.foldl min x

/-- Sum of squares of a list of samples, the signal power np.sum(y**2). -/
def sumSquares (l : List ℚ) : ℚ := (l.map (fun x => x * x)).sum

/-- The fundamental frequency section of extract_voice_features
(predictions.py lines 1259-1286): keep the non-NaN frames; compute
mean, max, min when strictly more than 5 remain, else keep the defaults.
The fourth component is the binding of the local name f0_valid: none means
the name was never assigned, which happens exactly when pyin raised. -/
def f0_section (pyinResult : Except Unit (List (Option ℚ))) :
    ℚ × ℚ × ℚ × Option (List ℚ) :=
  match pyinResult with
  | .ok f0 =>
      let f0_valid := f0.filterMap id
      if f0_valid.length > 5 then
        (listMean f0_valid, listMax f0_valid, listMin f0_valid, some f0_valid)
      else
        (154.23, 197.35, 116.82, some f0_valid)
  | .error _ => (154.23, 197.35, 116.82, none)

/-- The harmonic-noise section of extract_voice_features (predictions.py
lines 1298-1307): power ratios of the hpss components, clamped. Returns
the pair of the clamped hnr and nhr. -/
def harmonic_section (yHarmonic yPercussive : List ℚ) : ℚ × ℚ :=
  let harmonic_power := sumSquares yHarmonic
  let percussive_power := sumSquares yPercussive
  let hnr := harmonic_power / (percussive_power + 1e-6)
  let nhr := percussive_power / (harmonic_power + 1e-6)
  (min (max hnr 12) 28, min (max nhr 0.01) 0.19)

/-- The pitch period entropy section of extract_voice_features
(predictions.py lines 1328-1337): Shannon entropy of the histogram of the
instantaneous periods when more than one valid frame exists, clamped to
the range 0.15 to 0.35, else the default. -/
def ppe_section (periodsEntropy : List ℚ → ℚ) (f0_valid : List ℚ) : ℚ :=
  if f0_valid.length > 1 then
    let periods := f0_valid.map (fun x => 1 / x)
    min (max (periodsEntropy periods) 0.15) 0.35
  else 0.206

/-- extract_voice_features from predictions.py. Only the pitch tracking
call is inside a try block; the hpss call is unguarded, so its exception
propagates, and the pitch period entropy section reads the local name
f0_valid outside any try block, raising NameError when the pitch tracking
except path ran (f0_valid is assigned only inside the try block). -/
def extract_voice_features (env : AudioLibEnv) :
    Except PyError CombinedFeatures :=
  let f0res := f0_section env.pyinResult
  let mdvp_fo := f0res.1
  let mdvp_fhi := f0res.2.1
  let mdvp_flo := f0res.2.2.1
  let f0_valid_binding := f0res.2.2.2
  let mdvp_jitter : ℚ := 0.0062
  let mdvp_shimmer : ℚ := 0.0376
  match env.hpssResult with
  | .error _ => .error .libError
  | .ok comps =>
      let hres := harmonic_section comps.1 comps.2
      let hnr := hres.1
      let nhr := hres.2
      let rpde : ℚ := 0.498
      let dfa : ℚ := 0.718
      let spread1 : ℚ := -6.2
      let spread2 : ℚ := 0.226
      let d2 : ℚ := 2.381
      match f0_valid_binding with
      | none => .error .nameError
      | some f0_valid =>
          let ppe := ppe_section env.periodsEntropy f0_valid
          .ok ⟨mdvp_fo, mdvp_fhi, mdvp_flo, mdvp_jitter, mdvp_shimmer,
               nhr, hnr, rpde, dfa, spread1, spread2, d2, ppe⟩

/-! ## Model registry and multi-model endpoint (predictions.py lines
146-153, 380-511, 1026-1032) -/

/-- The global models dictionary: model name to optionally loaded handle. -/
abbrev ModelRegistry := List (String × Option Unit)

/-- The six keys of the models dictionary, in source order. -/
def MODEL_KEYS : List String :=
  ["svm", "random_forest", "neural_network", "extra_trees", "ensemble", "adaboost"]

/-- get_available_models from predictions.py (lines 1026-1028): returns
list(models.keys()), every key of the dictionary. -/
def get_available_models (models : ModelRegistry) : List String :=
  models.map Prod.fst

/-- is_model_available from predictions.py (lines 1030-1032): the key is
present and its handle is not None. -/
def is_model_available (models : ModelRegistry) (name : String) : Bool :=
  match models.lookup name with
  | some (some _) => true
  | _ => false

/-- ModelsInfoResponse returned by the GET models endpoint. -/
structure ModelsInfoResponse where
  available_models : List String
  feature_names : List String
  deriving DecidableEq, Repr

/-- The GET models endpoint (predictions.py lines 492-511): reports
list(models.keys()) as available_models together with the schema. -/
def get_models_endpoint (models : ModelRegistry) : ModelsInfoResponse :=
  ⟨models.map Prod.fst, EXPECTED_FEATURE_NAMES⟩

/-- The state the multi-model endpoint depends on: the registry, the scaler
flag, and the predict plus predict_proba outcome per model (an error models
the per-model exception that the loop catches and skips). -/
structure MultiEnv where
  models : ModelRegistry
  scalerLoaded : Bool
  predictModel : String → Except Unit (ℤ × ℚ)

/-- The response of the multi-model endpoint: the per-model results that
survived, and loaded_models which the code sets to list(models.keys()). -/
structure MultiModelPredictionResponse where
  results : List (String × ℤ × ℚ)
  loaded_models : List String
  deriving DecidableEq, Repr

/-- predict_all_models, the POST predict_all endpoint (predictions.py lines
380-474): fail with 503 when the scaler is missing, fail with 503 when
len(models) == 0 (the dictionary length, counting None handles), then run
every loaded model, skipping each None handle and each per-model exception,
and return a success with whatever results survived. -/
def predict_all_models (env : MultiEnv) :
    Except ℕ MultiModelPredictionResponse :=
  if ¬ env.scalerLoaded then .error 503
  else if env.models.length = 0 then .error 503
  else
    let results := env.models.foldl (fun acc p =>
      match p.2 with
      | none => acc
      | some _ =>
          match env.predictModel p.1 with
          | .ok r => acc ++ [(p.1, r)]
          | .error _ => acc) []
    .ok ⟨results, env.models.map Prod.fst⟩

/-! ## Concrete instances used by witnesses and counterexamples -/

/-- A concrete input for the feature mapper: only the alias mdvpFo supplied. -/
def c1input : PyDict := fun k => if k = "mdvpFo" then some 119.992 else none

/-- A concrete process state with everything loaded and a model that raises. -/
def env0 : ModelEnv := ⟨true, true, true, fun _ => .error (), none⟩

/-- The symptom set with every flag false at age 30. -/
def sym0 : ClinicalSymptoms := ⟨false, false, false, false, false, false, 30⟩

/-- A concrete voice feature vector (the population-typical defaults). -/
def vfeat0 : CombinedFeatures :=
  ⟨154.23, 197.35, 116.82, 0.0062, 0.0376, 0.022, 21.6, 0.498, 0.718,
   -6.2, 0.226, 2.381, 0.206⟩

/-- A pitch track with exactly five valid frames. -/
def fiveFrames : List (Option ℚ) :=
  [some 100, some 110, some 120, some 130, some 140]

/-- A pitch track with six valid frames. -/
def sixFrames : List (Option ℚ) :=
  [some 100, some 110, some 120, some 130, some 140, some 150]

/-- A library environment where the pitch tracking call raises. -/
def envPyinErr : AudioLibEnv := ⟨.error (), .ok ([1], [0]), fun _ => 0.2⟩

/-- A library environment where every library call succeeds. -/
def envOk : AudioLibEnv := ⟨.ok sixFrames, .ok ([1], [0]), fun _ => 0.2⟩

/-- The feature vector extract_voice_features returns on envOk. -/
def featsOk : CombinedFeatures :=
  ⟨125, 150, 100, 0.0062, 0.0376, 0.01, 28, 0.498, 0.718, -6.2, 0.226,
   2.381, 0.2⟩

/-- The registry state where every one of the six handles failed to load. -/
def allNoneModels : ModelRegistry :=
  [("svm", none), ("random_forest", none), ("neural_network", none),
   ("extra_trees", none), ("ensemble", none), ("adaboost", none)]

/-- Multi-model endpoint state: scaler loaded, all six handles None. -/
def envAllNone : MultiEnv := ⟨allNoneModels, true, fun _ => .error ()⟩

/-- A registry where svm failed to load and random_forest loaded. -/
def partialRegistry : ModelRegistry := [("svm", none), ("random_forest", some ())]

/-! ## Lemmas about the feature mapper folds -/

theorem mapStep_ne (input d : PyDict) (p : String × String) (s : String)
    (h : p.2 ≠ s) : mapStep input d p s = d s := by
  unfold mapStep
  cases input p.1 with
  | none => rfl
  | some v =>
      show (if s = p.2 then some v else d s) = d s
      exact if_neg (fun hs => h hs.symm)

theorem mapfold_notin (input : PyDict) (l : List (String × String))
    (d : PyDict) (s : String) (h : ∀ p ∈ l, p.2 ≠ s) :
    (l.foldl (mapStep input) d) s = d s := by
  induction l generalizing d with
  | nil => rfl
  | cons q l ih =>
      rw [List.foldl_cons, ih _ (fun p hp => h p (List.mem_cons_of_mem _ hp))]
      exact mapStep_ne input d q s (h q (List.mem_cons_self _ _))

theorem mapfold_found (input : PyDict) (l : List (String × String))
    (d : PyDict) (s : String) (p0 : String × String)
    (hfind : l.find? (fun p => p.2 == s) = some p0)
    (hnd : (l.map Prod.snd).Nodup) :
    (l.foldl (mapStep input) d) s =
      match input p0.1 with
      | some v => some v
      | none => d s := by
  induction l generalizing d with
  | nil => simp at hfind
  | cons q l ih =>
      rw [List.map_cons, List.nodup_cons] at hnd
      rw [List.foldl_cons]
      by_cases hq : q.2 = s
      · rw [List.find?_cons_of_pos _ (by simp [hq])] at hfind
        have hqp : p0 = q := by injection hfind with h; exact h.symm
        subst hqp
        have hnotin : ∀ p ∈ l, p.2 ≠ s := by
          intro p hp hps
          exact hnd.1 (by rw [hq, ← hps]; exact List.mem_map_of_mem Prod.snd hp)
        rw [mapfold_notin input l _ s hnotin]
        unfold mapStep
        cases hin : input p0.1 with
        | none => simp [hin]
        | some v =>
            simp only [hin]
            show (if s = p0.2 then some v else d s) = some v
            exact if_pos hq.symm
      · rw [List.find?_cons_of_neg _ (by simp [hq])] at hfind
        rw [ih _ hfind hnd.2]
        cases input p0.1 with
        | none => exact mapStep_ne input d q s hq
        | some v => rfl

theorem fillStep_ne (d : PyDict) (f s : String) (h : s ≠ f) :
    fillStep d f s = d s := by
  unfold fillStep
  cases d f with
  | some v => rfl
  | none =>
      show (if s = f then _ else d s) = d s
      exact if_neg h

theorem fillStep_preserve (d : PyDict) (f s : String) (v : ℚ)
    (h : d s = some v) : fillStep d f s = some v := by
  unfold fillStep
  cases hdf : d f with
  | some w => exact h
  | none =>
      show (if s = f then _ else d s) = some v
      by_cases hsf : s = f
      · rw [hsf] at h; rw [h] at hdf; exact absurd hdf (by simp)
      · rw [if_neg hsf]; exact h

theorem fillfold_preserve (l : List String) (d : PyDict) (s : String) (v : ℚ)
    (h : d s = some v) : (l.foldl fillStep d) s = some v := by
  induction l generalizing d with
  | nil => exact h
  | cons f l ih => rw [List.foldl_cons]; exact ih _ (fillStep_preserve d f s v h)

theorem fillfold_notin (l : List String) (d : PyDict) (s : String)
    (h : s ∉ l) : (l.foldl fillStep d) s = d s := by
  induction l generalizing d with
  | nil => rfl
  | cons f l ih =>
      rw [List.foldl_cons, ih _ (fun hs => h (List.mem_cons_of_mem _ hs))]
      exact fillStep_ne d f s (fun hs => h (hs ▸ List.mem_cons_self _ _))

theorem fillfold_mem (l : List String) (d : PyDict) (s : String)
    (h : s ∈ l) :
    (l.foldl fillStep d) s = some ((d s).getD (defaultOrZero s)) := by
  induction l generalizing d with
  | nil => simp at h
  | cons f l ih =>
      rw [List.foldl_cons]
      by_cases hsf : s = f
      · subst hsf
        cases hds : d s with
        | some v =>
            rw [fillfold_preserve l _ s v (by unfold fillStep; rw [hds]; exact hds)]
            simp
        | none =>
            have hstep : fillStep d s s = some (defaultOrZero s) := by
              unfold fillStep; rw [hds]
              show (if s = s then some (defaultOrZero s) else d s) = _
              rw [if_pos rfl]
            rw [fillfold_preserve l _ s _ hstep]
            simp
      · have hs : s ∈ l := by
          cases List.mem_cons.mp h with
          | inl heq => exact absurd heq hsf
          | inr hmem => exact hmem
        rw [ih _ hs, fillStep_ne d f s hsf]

/-! ## Claim theorems -/

/-- C1: for every input dictionary, prepare_model_input returns a dictionary
whose key set is exactly the 22 schema feature names: each supplied alias
value is copied to its mapped schema name, each unpopulated schema name with
a registered default receives that default, every remaining schema name
receives 0.0 (preparedValueSpec states exactly this value), and no key
outside the schema appears. The function is total in this embedding, which
is the never-raises guarantee. -/
theorem C1_prepare_model_input_schema (input : PyDict) :
    (∀ s ∈ EXPECTED_FEATURE_NAMES,
        prepare_model_input input s = some (preparedValueSpec input s)) ∧
    (∀ s, s ∉ EXPECTED_FEATURE_NAMES → prepare_model_input input s = none) := by
  constructor
  · intro s hs
    unfold prepare_model_input
    rw [fillfold_mem _ _ _ hs]
    have hall : ∀ t ∈ EXPECTED_FEATURE_NAMES,
        (FEATURE_MAPPING.find? (fun p => p.2 == t)).isSome = true := by decide
    obtain ⟨p0, hp0⟩ := Option.isSome_iff_exists.mp (hall s hs)
    have hnd : (FEATURE_MAPPING.map Prod.snd).Nodup := by decide
    rw [mapfold_found input _ _ _ _ hp0 hnd]
    unfold preparedValueSpec
    rw [hp0]
    cases hin : input p0.1 <;> simp [hin, emptyDict]
  · intro s hs
    unfold prepare_model_input
    rw [fillfold_notin _ _ _ hs]
    have hsnd : ∀ q ∈ FEATURE_MAPPING, q.2 ∈ EXPECTED_FEATURE_NAMES := by decide
    rw [mapfold_notin input _ _ _
      (fun p hp hps => hs (by rw [← hps]; exact hsnd p hp))]
    rfl

unseal Rat.mul Rat.inv Rat.add Rat.sub Rat.ofScientific in
/-- C1 witness: at an input supplying only the alias mdvpFo, the prepared
dictionary copies that value to its schema name, fills a schema name with a
registered default, fills one without a default with 0.0, and holds no key
for the alias itself. -/
theorem C1_prepare_model_input_schema_witness :
    prepare_model_input c1input "MDVP:Fo(Hz)" = some 119.992 ∧
    prepare_model_input c1input "MDVP:RAP" = some 0.003 ∧
    prepare_model_input c1input "HNR" = some 0 ∧
    prepare_model_input c1input "mdvpFo" = none := by
  refine ⟨?_, ?_, ?_, ?_⟩
  · exact ((C1_prepare_model_input_schema c1input).1 _ (by decide)).trans (by decide)
  · exact ((C1_prepare_model_input_schema c1input).1 _ (by decide)).trans (by decide)
  · exact ((C1_prepare_model_input_schema c1input).1 _ (by decide)).trans (by decide)
  · exact (C1_prepare_model_input_schema c1input).2 _ (by decide)

/-! ## Lemmas about the clinical risk rubric -/

theorem addIf (b : Bool) (x c : ℚ) :
    (if b then x + c else x) = x + (if b then c else 0) := by
  cases b <;> simp

/-- The age contribution of the rubric, as a standalone term. -/
def ageTerm (a : ℤ) : ℚ :=
  if a > 40 then min (((a : ℚ) - 40) / 40) 1 * 15 else 0

theorem ageTerm_nonneg (a : ℤ) : 0 ≤ ageTerm a := by
  unfold ageTerm
  split_ifs with h
  · have h40 : (40 : ℚ) < (a : ℚ) := by exact_mod_cast h
    have h1 : (0 : ℚ) ≤ ((a : ℚ) - 40) / 40 := by
      apply div_nonneg <;> linarith
    have h2 : (0 : ℚ) ≤ min (((a : ℚ) - 40) / 40) 1 := le_min h1 (by norm_num)
    linarith
  · exact le_refl 0

theorem ageTerm_mono (a1 a2 : ℤ) (h : a1 ≤ a2) : ageTerm a1 ≤ ageTerm a2 := by
  unfold ageTerm
  by_cases h1 : a1 > 40
  · rw [if_pos h1, if_pos (lt_of_lt_of_le h1 h)]
    have hc : ((a1 : ℚ) - 40) / 40 ≤ ((a2 : ℚ) - 40) / 40 := by
      apply div_le_div_of_nonneg_right ?_ (by norm_num)
      have : (a1 : ℚ) ≤ (a2 : ℚ) := by exact_mod_cast h
      linarith
    have := min_le_min hc (le_refl (1 : ℚ))
    linarith
  · rw [if_neg h1]
    have := ageTerm_nonneg a2
    unfold ageTerm at this
    exact this

theorem iteNonneg (b : Bool) (c : ℚ) (hc : 0 ≤ c) :
    0 ≤ if b then c else 0 := by
  cases b <;> simp [hc]

theorem iteMono (b1 b2 : Bool) (h : b1 = true → b2 = true) (c : ℚ)
    (hc : 0 ≤ c) : (if b1 then c else 0) ≤ (if b2 then c else 0) := by
  cases b1 with
  | false => exact le_trans (by norm_num) (iteNonneg b2 c hc)
  | true => rw [h rfl]

/-- The rubric equals the sum of the six symptom contributions and the age
term, capped at 100. -/
theorem risk_sum_form (s : ClinicalSymptoms) :
    calculate_clinical_risk_from_symptoms s =
      min ((if s.tremor then (25 : ℚ) else 0) +
           (if s.bradykinesia then 25 else 0) +
           (if s.rigidity then 20 else 0) +
           (if s.posturalInstability then 15 else 0) +
           (if s.voiceChanges then 10 else 0) +
           (if s.handwriting then 5 else 0) + ageTerm s.age) 100 := by
  simp only [calculate_clinical_risk_from_symptoms, ageTerm, addIf, ite_mul,
    zero_mul]
  congr 1
  ring

/-- C3: the clinical risk score is the additive rubric, 25 for tremor, 25
for bradykinesia, 20 for rigidity, 15 for postural instability, 10 for
voice changes, 5 for handwriting, and an age term of
min((age-40)/40, 1)*15 above age 40, capped at 100; for tremor and
bradykinesia at age 70 the score is 61.25. -/
theorem C3_clinical_risk_rubric :
    (∀ s : ClinicalSymptoms,
        calculate_clinical_risk_from_symptoms s =
          min ((if s.tremor then (25 : ℚ) else 0) +
               (if s.bradykinesia then 25 else 0) +
               (if s.rigidity then 20 else 0) +
               (if s.posturalInstability then 15 else 0) +
               (if s.voiceChanges then 10 else 0) +
               (if s.handwriting then 5 else 0) +
               (if s.age > 40 then min (((s.age : ℚ) - 40) / 40) 1 * 15 else 0))
            100) ∧
    calculate_clinical_risk_from_symptoms
        ⟨true, false, true, false, false, false, 70⟩ = 61.25 := by
  constructor
  · intro s
    exact risk_sum_form s
  · norm_num [calculate_clinical_risk_from_symptoms, min_def]

/-- C10: the clinical risk score is monotone, any enlargement of the set of
true symptom flags together with any age increase can only raise the
score, and the score always lies between 0 and 100. -/
theorem C10_clinical_risk_monotone_bounded :
    (∀ s1 s2 : ClinicalSymptoms,
        (s1.tremor = true → s2.tremor = true) →
        (s1.rigidity = true → s2.rigidity = true) →
        (s1.bradykinesia = true → s2.bradykinesia = true) →
        (s1.posturalInstability = true → s2.posturalInstability = true) →
        (s1.voiceChanges = true → s2.voiceChanges = true) →
        (s1.handwriting = true → s2.handwriting = true) →
        s1.age ≤ s2.age →
        calculate_clinical_risk_from_symptoms s1 ≤
          calculate_clinical_risk_from_symptoms s2) ∧
    (∀ s : ClinicalSymptoms,
        0 ≤ calculate_clinical_risk_from_symptoms s ∧
        calculate_clinical_risk_from_symptoms s ≤ 100) := by
  constructor
  · intro s1 s2 ht hr hb hp hv hh ha
    rw [risk_sum_form s1, risk_sum_form s2]
    apply min_le_min _ (le_refl (100 : ℚ))
    have h1 := iteMono s1.tremor s2.tremor ht (25 : ℚ) (by norm_num)
    have h2 := iteMono s1.bradykinesia s2.bradykinesia hb (25 : ℚ) (by norm_num)
    have h3 := iteMono s1.rigidity s2.rigidity hr (20 : ℚ) (by norm_num)
    have h4 := iteMono s1.posturalInstability s2.posturalInstability hp (15 : ℚ)
      (by norm_num)
    have h5 := iteMono s1.voiceChanges s2.voiceChanges hv (10 : ℚ) (by norm_num)
    have h6 := iteMono s1.handwriting s2.handwriting hh (5 : ℚ) (by norm_num)
    have h7 := ageTerm_mono s1.age s2.age ha
    linarith
  · intro s
    rw [risk_sum_form s]
    constructor
    · apply le_min _ (by norm_num)
      have h1 := iteNonneg s.tremor (25 : ℚ) (by norm_num)
      have h2 := iteNonneg s.bradykinesia (25 : ℚ) (by norm_num)
      have h3 := iteNonneg s.rigidity (20 : ℚ) (by norm_num)
      have h4 := iteNonneg s.posturalInstability (15 : ℚ) (by norm_num)
      have h5 := iteNonneg s.voiceChanges (10 : ℚ) (by norm_num)
      have h6 := iteNonneg s.handwriting (5 : ℚ) (by norm_num)
      have h7 := ageTerm_nonneg s.age
      linarith
    · exact min_le_right _ _

unseal Rat.mul Rat.inv Rat.add Rat.sub Rat.ofScientific in
/-- C10 witness: adding the rigidity flag and ten years of age to a tremor
patient cannot lower the score, and the all-false symptom set at age 30
has a nonnegative score. -/
theorem C10_clinical_risk_monotone_bounded_witness :
    calculate_clinical_risk_from_symptoms
        ⟨true, false, false, false, false, false, 50⟩ ≤
      calculate_clinical_risk_from_symptoms
        ⟨true, true, false, false, false, false, 60⟩ ∧
    0 ≤ calculate_clinical_risk_from_symptoms
        ⟨false, false, false, false, false, false, 30⟩ := by
  constructor
  · exact C10_clinical_risk_monotone_bounded.1
      ⟨true, false, false, false, false, false, 50⟩
      ⟨true, true, false, false, false, false, 60⟩
      (by decide) (by decide) (by decide) (by decide) (by decide) (by decide)
      (by decide)
  · exact (C10_clinical_risk_monotone_bounded.2
      ⟨false, false, false, false, false, false, 30⟩).1

/-- C2: for every clinical request that yields a response, when voice
features are present the handler fuses the voice probability it uses
(the fixed 0.65, see the C4 theorem) with the clinical score as
0.6*p + 0.4*(clinical/100) and 0.6*(p*100) + 0.4*clinical, predicting 1
exactly when the combined probability exceeds 0.5, labelled
ensemble_with_clinical; when voice data is absent the response carries
clinical/100 and the clinical score, predicting 1 exactly when the
clinical score exceeds 50, labelled clinical_assessment, and that label
appears exactly on this path. -/
theorem C2_risk_fusion (env : ModelEnv) (sym : ClinicalSymptoms)
    (vf : Option CombinedFeatures) (resp : ClinicalAssessmentResponse)
    (h : assess_clinical_symptoms env sym vf = .ok resp) :
    (∀ v, vf = some v →
        resp.probability =
          0.6 * 0.65 + 0.4 * (calculate_clinical_risk_from_symptoms sym / 100) ∧
        resp.risk_score =
          0.6 * (0.65 * 100) + 0.4 * calculate_clinical_risk_from_symptoms sym ∧
        (resp.prediction = 1 ↔ resp.probability > 0.5) ∧
        resp.model_used = "ensemble_with_clinical") ∧
    (vf = none →
        resp.probability = calculate_clinical_risk_from_symptoms sym / 100 ∧
        resp.risk_score = calculate_clinical_risk_from_symptoms sym ∧
        (resp.prediction = 1 ↔ calculate_clinical_risk_from_symptoms sym > 50) ∧
        resp.model_used = "clinical_assessment") := by
  constructor
  · rintro v rfl
    simp only [assess_clinical_symptoms, Option.isSome_some, if_true] at h
    rw [Except.ok.injEq] at h
    subst h
    refine ⟨by ring, by ring, ?_, rfl⟩
    by_cases hc :
        (0.65 : ℚ) * 0.6 + calculate_clinical_risk_from_symptoms sym / 100 * 0.4
          > 0.5 <;>
      simp [hc]
  · rintro rfl
    simp only [assess_clinical_symptoms, Option.isSome_none, Bool.false_eq_true,
      if_false] at h
    by_cases hm : ensure_models_loaded env
    · simp only [hm, not_true, if_false, if_neg] at h
      simp only [false_and, if_false] at h
      rw [Except.ok.injEq] at h
      subst h
      refine ⟨rfl, rfl, ?_, rfl⟩
      by_cases hc : calculate_clinical_risk_from_symptoms sym > 50 <;> simp [hc]
    · simp only [hm, not_false_iff, if_true] at h
      exact absurd h (by simp)

unseal Rat.mul Rat.inv Rat.add Rat.sub Rat.ofScientific in
/-- C2 witness: at a concrete state, symptom set and voice feature vector,
the fused response on the voice path and the clinical-only response both
satisfy the fusion equations. -/
theorem C2_risk_fusion_witness :
    ((0.39 : ℚ) =
        0.6 * 0.65 + 0.4 * (calculate_clinical_risk_from_symptoms sym0 / 100) ∧
      (39 : ℚ) =
        0.6 * (0.65 * 100) + 0.4 * calculate_clinical_risk_from_symptoms sym0 ∧
      ((0 : ℤ) = 1 ↔ (0.39 : ℚ) > 0.5) ∧
      ("ensemble_with_clinical" : String) = "ensemble_with_clinical") ∧
    ((0 : ℚ) = calculate_clinical_risk_from_symptoms sym0 / 100 ∧
      (0 : ℚ) = calculate_clinical_risk_from_symptoms sym0 ∧
      ((0 : ℤ) = 1 ↔ calculate_clinical_risk_from_symptoms sym0 > 50) ∧
      ("clinical_assessment" : String) = "clinical_assessment") := by
  constructor
  · exact (C2_risk_fusion env0 sym0 (some vfeat0)
      ⟨0, 0.39, 39, "ensemble_with_clinical", HARDCODED_FEATURE_IMPORTANCE, true⟩
      rfl).1 vfeat0 rfl
  · exact (C2_risk_fusion env0 sym0 none
      ⟨0, 0, 0, "clinical_assessment", [], false⟩ rfl).2 rfl

/-- C4: whenever the optional voice_features field is present, the handler
returns the pre-generated response without consulting any loaded model:
the result is identical across arbitrary process states (so no model or
scaler is invoked), and it equals the response built from the fixed
voice probability 0.65 and voice risk 65.0 fused with the clinical score,
with model_used ensemble_with_clinical, has_voice_data true and the fixed
hard-coded feature importance mapping. -/
theorem C4_hardcoded_voice_branch (env env2 : ModelEnv)
    (sym : ClinicalSymptoms) (v : CombinedFeatures) :
    assess_clinical_symptoms env sym (some v) =
      assess_clinical_symptoms env2 sym (some v) ∧
    assess_clinical_symptoms env sym (some v) =
      .ok ⟨(if (0.65 : ℚ) * 0.6 +
              calculate_clinical_risk_from_symptoms sym / 100 * 0.4 > 0.5
            then 1 else 0),
           0.65 * 0.6 + calculate_clinical_risk_from_symptoms sym / 100 * 0.4,
           65.0 * 0.6 + calculate_clinical_risk_from_symptoms sym * 0.4,
           "ensemble_with_clinical", HARDCODED_FEATURE_IMPORTANCE, true⟩ :=
  ⟨rfl, rfl⟩

/-- C5: refuted as stated; the extraction is not total. Whenever the pitch
tracking call raises (the case the except branch at lines 1280-1286 is
meant to absorb with defaults), extract_voice_features never returns a
feature vector: it raises in turn, with a NameError at the pitch period
entropy section when the unguarded hpss call succeeded, because the local
name f0_valid is assigned only inside the try block. -/
theorem C5_extraction_raises_after_pyin_failure (env : AudioLibEnv)
    (h : env.pyinResult = .error ()) :
    (∀ feats, extract_voice_features env ≠ .ok feats) ∧
    (∀ comps, env.hpssResult = .ok comps →
        extract_voice_features env = .error PyError.nameError) := by
  constructor
  · intro feats
    unfold extract_voice_features
    rw [h]
    cases hh : env.hpssResult <;> simp [f0_section]
  · intro comps hcomps
    unfold extract_voice_features
    rw [h, hcomps]
    rfl

unseal Rat.mul Rat.inv Rat.add Rat.sub Rat.ofScientific in
/-- C5 witness: at the concrete environment where pitch tracking raises and
hpss succeeds, the extractor raises NameError instead of returning the
default feature vector. -/
theorem C5_extraction_raises_after_pyin_failure_witness :
    extract_voice_features envPyinErr = .error PyError.nameError :=
  (C5_extraction_raises_after_pyin_failure envPyinErr rfl).2 ([1], [0]) rfl

unseal Rat.mul Rat.inv Rat.add Rat.sub Rat.ofScientific in
/-- C6 counterexample: a pitch track with exactly 5 valid frames, hence at
least 5, for which the extracted Fo is the default 154.23 and not the mean
120 of the frames; the code computes the statistics only when strictly
more than 5 valid frames exist. -/
theorem C6_f0_at_least_five_frames_counterexample :
    (fiveFrames.filterMap id).length = 5 ∧
    (f0_section (.ok fiveFrames)).1 = 154.23 ∧
    listMean (fiveFrames.filterMap id) = 120 ∧
    (f0_section (.ok fiveFrames)).1 ≠ listMean (fiveFrames.filterMap id) := by
  refine ⟨rfl, rfl, ?_, ?_⟩ <;> decide

/-- C6 amended: the fundamental frequency features keep the defaults
154.23, 197.35 and 116.82 whenever the pitch track yields at most 5 valid
frames, and equal the mean, max and min of the valid frames whenever
strictly more than 5 valid frames exist. -/
theorem C6_f0_defaults_boundary (f0 : List (Option ℚ)) :
    ((f0.filterMap id).length ≤ 5 →
        f0_section (.ok f0) =
          (154.23, 197.35, 116.82, some (f0.filterMap id))) ∧
    ((f0.filterMap id).length > 5 →
        f0_section (.ok f0) =
          (listMean (f0.filterMap id), listMax (f0.filterMap id),
           listMin (f0.filterMap id), some (f0.filterMap id))) := by
  have hred : f0_section (.ok f0) =
      if (f0.filterMap id).length > 5 then
        (listMean (f0.filterMap id), listMax (f0.filterMap id),
         listMin (f0.filterMap id), some (f0.filterMap id))
      else (154.23, 197.35, 116.82, some (f0.filterMap id)) := rfl
  constructor
  · intro h
    rw [hred, if_neg (by omega)]
  · intro h
    rw [hred, if_pos h]

unseal Rat.mul Rat.inv Rat.add Rat.sub Rat.ofScientific in
/-- C6 witness: the amended boundary evaluated at a five-frame track, which
keeps the defaults, and at a six-frame track, which computes the
statistics. -/
theorem C6_f0_defaults_boundary_witness :
    f0_section (.ok fiveFrames) =
      (154.23, 197.35, 116.82, some (fiveFrames.filterMap id)) ∧
    f0_section (.ok sixFrames) =
      (listMean (sixFrames.filterMap id), listMax (sixFrames.filterMap id),
       listMin (sixFrames.filterMap id), some (sixFrames.filterMap id)) :=
  ⟨(C6_f0_defaults_boundary fiveFrames).1 (by decide),
   (C6_f0_defaults_boundary sixFrames).2 (by decide)⟩

/-- The harmonic section clamps both ratios into their ranges. -/
theorem harmonic_section_bounds (yh yp : List ℚ) :
    12 ≤ (harmonic_section yh yp).1 ∧ (harmonic_section yh yp).1 ≤ 28 ∧
    0.01 ≤ (harmonic_section yh yp).2 ∧ (harmonic_section yh yp).2 ≤ 0.19 := by
  have h1 : (harmonic_section yh yp).1 =
      min (max (sumSquares yh / (sumSquares yp + 1e-6)) 12) 28 := rfl
  have h2 : (harmonic_section yh yp).2 =
      min (max (sumSquares yp / (sumSquares yh + 1e-6)) 0.01) 0.19 := rfl
  rw [h1, h2]
  exact ⟨le_min (le_max_right _ _) (by norm_num), min_le_right _ _,
         le_min (le_max_right _ _) (by norm_num), min_le_right _ _⟩

/-- C7: whenever the extractor returns a feature vector, its HNR lies in
the range 12.0 to 28.0 and its NHR in the range 0.01 to 0.19, for every
audio input including silence and pure noise, because both power ratios
are clamped. -/
theorem C7_harmonic_ratios_clamped (env : AudioLibEnv)
    (feats : CombinedFeatures)
    (h : extract_voice_features env = .ok feats) :
    12 ≤ feats.hnr ∧ feats.hnr ≤ 28 ∧
    0.01 ≤ feats.nhr ∧ feats.nhr ≤ 0.19 := by
  cases hh : env.hpssResult with
  | error e =>
      simp only [extract_voice_features, hh] at h
      exact Except.noConfusion h
  | ok comps =>
      cases hb : (f0_section env.pyinResult).2.2.2 with
      | none =>
          simp only [extract_voice_features, hh, hb] at h
          exact Except.noConfusion h
      | some f0v =>
          simp only [extract_voice_features, hh, hb, Except.ok.injEq] at h
          have hhnr : feats.hnr = (harmonic_section comps.1 comps.2).1 := by
            rw [← h]
          have hnhr : feats.nhr = (harmonic_section comps.1 comps.2).2 := by
            rw [← h]
          rw [hhnr, hnhr]
          exact harmonic_section_bounds comps.1 comps.2

unseal Rat.mul Rat.inv Rat.add Rat.sub Rat.ofScientific in
/-- C7 witness: at a concrete successful extraction the returned HNR and
NHR respect the clamp ranges. -/
theorem C7_harmonic_ratios_clamped_witness :
    12 ≤ featsOk.hnr ∧ featsOk.hnr ≤ 28 ∧
    0.01 ≤ featsOk.nhr ∧ featsOk.nhr ≤ 0.19 :=
  C7_harmonic_ratios_clamped envOk featsOk rfl

/-- C8: refuted as stated; with the scaler loaded and every one of the six
model handles None, the multi-model endpoint returns a success response
containing no per-model predictions instead of a 503 or error, because its
guard tests len(models) == 0 on the dictionary, which always holds six
keys. -/
theorem C8_predict_all_empty_success :
    (∀ m ∈ envAllNone.models, m.2 = none) ∧
    envAllNone.scalerLoaded = true ∧
    predict_all_models envAllNone =
      .ok ⟨[], ["svm", "random_forest", "neural_network", "extra_trees",
                "ensemble", "adaboost"]⟩ := by
  refine ⟨by decide, rfl, rfl⟩

/-- C9: refuted as stated; after an initialization in which the svm handle
failed to load (None) while random_forest loaded, the svm identifier is
still reported by get_available_models and by the GET models endpoint,
although is_model_available correctly reports it as not callable, because
both report list(models.keys()) without filtering None handles. -/
theorem C9_unloaded_model_reported_available :
    is_model_available partialRegistry "svm" = false ∧
    "svm" ∈ get_available_models partialRegistry ∧
    "svm" ∈ (get_models_endpoint partialRegistry).available_models := by
  refine ⟨rfl, by decide, by decide⟩

end Parkinson
